import Mathlib

/-!
Verification of the securent-facebook-feed widget (src/README.md, embedded
modules api.js and widget.js) against its natural-language specification.

Shallow embedding conventions:
* A JavaScript `Date` value is `JSDate := Option Int` (milliseconds since
  epoch); `none` stands for an Invalid Date (`NaN` time value).  JS relational
  comparison on dates returns false whenever either side is `NaN`, which
  `jsDateLt` / `jsDateGt` reproduce.
* Host-platform services that the repository code calls but does not define
  (the `fetch` network primitive, `JSON.stringify` / `JSON.parse`,
  `Date` parsing, `localStorage`) are passed in as explicit parameters: a
  network oracle `String → Nat → FetchOutcome` giving the outcome of each
  attempt against a url, serialization functions, a date parser, and an
  explicit `Store` value for the two localStorage keys.
* Fallible operations return `Except String _` (the thrown `Error` carries
  its message string) or `Option _`.
-/

namespace SecurentFb

/-- A Facebook post as the widget consumes it: `id`, ISO-8601-ish
`created_time` string, optional `message`.  Other fields (attachments, ...)
are not read by the fetch/cache/filter/paginate core. -/
structure Post where
  id : String
  created_time : String
  message : Option String
deriving Repr, DecidableEq

/-- A JavaScript `Date`: `some ms` for a valid instant, `none` for Invalid
Date (`NaN` time value). -/
abbrev JSDate := Option Int

/-- JS `a < b` on dates: false whenever either side is Invalid (`NaN`). -/
def jsDateLt : JSDate → JSDate → Bool
  | some a, some b => decide (a < b)
  | _, _ => false

/-- JS `a > b` on dates: false whenever either side is Invalid (`NaN`). -/
def jsDateGt : JSDate → JSDate → Bool
  | some a, some b => decide (a > b)
  | _, _ => false

/-! ## api.js — resilient fetch with retry -/

/-- Outcome of one low-level `fetch` attempt, as the surrounding code
observes it: either an HTTP response with a status code and (for 2xx) a
parsed JSON body, or a thrown failure (network error, abort-on-timeout,
body-parse error) carrying its message. -/
inductive FetchOutcome where
  | response (status : Nat) (body : List Post)
  | failure (msg : String)
deriving Repr, DecidableEq

/-- The error message an attempt throws, `none` if the attempt succeeds.
Mirrors the body of the `try` block in `fetchWithRetry` (README.md:1456-1462):
`response.ok` means status 200-299; a non-ok 4xx status throws
`API error: <status>`; any other non-ok status throws `HTTP <status>`;
a transport-level failure throws its own message. -/
def attemptError : FetchOutcome → Option String
  | .response status _ =>
      if 200 ≤ status ∧ status ≤ 299 then none
      else if 400 ≤ status ∧ status < 500 then some ("API error: " ++ toString status)
      else some ("HTTP " ++ toString status)
  | .failure msg => some msg

/-- The parsed body of a successful attempt (only consulted when
`attemptError` is `none`). -/
def attemptData : FetchOutcome → List Post
  | .response _ body => body
  | .failure _ => []

/-- `const delays = [1000, 2000]` (README.md:1439). -/
def retryDelays : List Nat := [1000, 2000]

/-- The observable trace of one `fetchWithRetry` call: its result (returned
posts or the thrown error message), how many fetch attempts it made, and the
backoff waits (ms) it performed between attempts, in order. -/
structure RetryTrace where
  result : Except String (List Post)
  attempts : Nat
  waits : List Nat
deriving Repr

/-- The `for (let attempt = 0; attempt <= retries; attempt++)` loop of
`fetchWithRetry` (README.md:1441-1482).  `fuel` is the loop bound
(`retries + 1 - attempt`), so the `fuel = 0` branch is unreachable when
entered from `fetchWithRetry`.  Note that the thrown 4xx error of the `try`
block is caught by the `catch` of the same iteration, exactly as in the
source, so every kind of attempt error reaches the retry logic.  The
cache write `saveToCache(data)` performed on the successful attempt is
omitted from this pure trace: within a single call the cache is only read on
the failure path, which is disjoint from the success path (modelled
separately via `saveToCache`). -/
def fetchGo (oracle : String → Nat → FetchOutcome) (url : String)
    (retries : Nat) : Nat → Nat → RetryTrace
  | 0, _ => { result := .error "", attempts := 0, waits := [] }
  | fuel + 1, attempt =>
      let out := oracle url attempt
      match attemptError out with
      | none => { result := .ok (attemptData out), attempts := 1, waits := [] }
      | some msg =>
          if attempt == retries then
            { result := .error msg, attempts := 1, waits := [] }
          else
            let w := if attempt < retryDelays.length then [retryDelays.getD attempt 0] else []
            let rest := fetchGo oracle url retries fuel (attempt + 1)
            { result := rest.result, attempts := 1 + rest.attempts, waits := w ++ rest.waits }

/-- `fetchWithRetry(url, retries = 2)` (README.md:1438-1483), as a trace of
attempts driven by the network oracle. -/
def fetchWithRetry (oracle : String → Nat → FetchOutcome) (url : String)
    (retries : Nat) : RetryTrace :=
  fetchGo oracle url retries (retries + 1) 0

/-! ## api.js — localStorage cache -/

/-- The two localStorage slots the module uses: key `securent-fb-cache`
(JSON-encoded post array) and key `securent-fb-cache-time` (ISO instant
string).  `none` = key absent. -/
structure Store where
  cache : Option String
  cacheTime : Option String
deriving Repr, DecidableEq

/-- What `getFromCache` reconstructs: the cached posts and the cached
timestamp as a `Date` (possibly Invalid if the stored string is corrupt). -/
structure CachedFeed where
  data : List Post
  timestamp : JSDate
deriving Repr, DecidableEq

/-- `saveToCache(data)` (README.md:1489-1496).  `stringify` models
`JSON.stringify`; `nowIso` models `new Date().toISOString()`.  The two
`localStorage.setItem` calls run in order and each may throw
(storage quota): `ok1` / `ok2` say whether they succeed.  The `try/catch`
swallows the failure, so a failure of the second write leaves the first
write in place. -/
def saveToCache (stringify : List Post → String) (nowIso : String)
    (ok1 ok2 : Bool) (data : List Post) (s : Store) : Store :=
  if ok1 then
    let s1 : Store := { s with cache := some (stringify data) }
    if ok2 then { s1 with cacheTime := some nowIso } else s1
  else s

/-- `getFromCache()` (README.md:1502-1518).  `parseData` models `JSON.parse`
(`none` = parse throws, caught and turned into `null`); `parseTime` models
`new Date(string)` (never throws; Invalid Date on a bad string).  The JS
guard `if (data && timestamp)` treats a missing key and an empty string
alike as absent. -/
def getFromCache (parseData : String → Option (List Post))
    (parseTime : String → JSDate) (s : Store) : Option CachedFeed :=
  match s.cache, s.cacheTime with
  | some d, some t =>
      if d = "" ∨ t = "" then none
      else
        match parseData d with
        | some posts => some { data := posts, timestamp := parseTime t }
        | none => none
  | _, _ => none

/-! ## api.js — feed accessor -/

/-- `getApiUrl(apiUrl)` (README.md:1420-1430): on localhost-like hostnames
the configured url is discarded in favour of the relative mock-data path. -/
def getApiUrl (hostname apiUrl : String) : String :=
  if hostname = "localhost" ∨ hostname = "127.0.0.1" ∨ hostname = "" then
    "mock-data.json"
  else apiUrl

/-- The object `fetchFeed` resolves with: posts, cache provenance flag,
timestamp (`new Date()` on the fresh path, the cached `Date` on the fallback
path), and the failure message on the fallback path. -/
structure FeedResult where
  data : List Post
  fromCache : Bool
  timestamp : JSDate
  error : Option String
deriving Repr, DecidableEq

/-- The body of `fetchFeed` after url resolution (README.md:1526-1548):
try `fetchWithRetry` (with its default `retries = 2`); on success resolve
fresh; on failure fall back to `getFromCache`; rethrow the original error
only when the cache is absent.  `now` models the instant of `new Date()` on
the success path. -/
def fetchFeedAt (oracle : String → Nat → FetchOutcome) (url : String)
    (parseData : String → Option (List Post)) (parseTime : String → JSDate)
    (store : Store) (now : Int) : Except String FeedResult :=
  match (fetchWithRetry oracle url 2).result with
  | .ok data => .ok { data := data, fromCache := false, timestamp := some now, error := none }
  | .error e =>
      match getFromCache parseData parseTime store with
      | some cached =>
          .ok { data := cached.data, fromCache := true, timestamp := cached.timestamp,
                error := some e }
      | none => .error e

/-- `fetchFeed(apiUrl)` (README.md:1525-1549): resolve the url through
`getApiUrl` (using the page hostname), then run the fetch-or-cache body. -/
def fetchFeed (oracle : String → Nat → FetchOutcome) (hostname : String)
    (parseData : String → Option (List Post)) (parseTime : String → JSDate)
    (store : Store) (now : Int) (apiUrl : String) : Except String FeedResult :=
  fetchFeedAt oracle (getApiUrl hostname apiUrl) parseData parseTime store now

/-! ## widget.js — filter configuration and filterPosts -/

/-- The widget's filter configuration as the constructor builds it
(README.md:918-925): `filterKeywords` parsed from the semicolon-separated
option (`none` when the option is absent), and the two date bounds as JS
`Date` instants (`none` when the corresponding option is absent; a
configured `YYYY-MM-DD` bound parses to a valid midnight instant, carried
here in milliseconds). -/
structure FilterConfig where
  filterKeywords : Option (List String)
  startDate : Option Int
  endDate : Option Int

/-- Keyword parsing in the constructor (README.md:919-921):
split on semicolons, trim, lowercase, drop empties; `none` when the option
is absent. -/
def parseKeywords (opt : Option String) : Option (List String) :=
  opt.map fun s =>
    ((s.splitOn ";").map fun k => k.trim.toLower).filter fun k => k ≠ ""

/-- The `endOfDay` instant computed by `filterPosts` (README.md:1031-1032):
a copy of `endDate` with its time fields set to 23:59:59.999.  A configured
`endDate` is the midnight instant of its day (parsed from `YYYY-MM-DD`), so
setting the clock to the last millisecond of that day adds 86399999 ms. -/
def endOfDay (e : Int) : Int := e + 86399999

/-- The predicate of the `posts.filter` closure in `filterPosts`
(README.md:1021-1052), given `parseDate` modelling `new Date(string)`.
Date block: runs only when a start or end bound is configured; an
unparseable `created_time` gives an Invalid Date, and both `jsDateLt` and
`jsDateGt` are false on it, so neither date check rejects such a post.
Keyword block: runs only when the parsed keyword list is non-empty; keeps
the post when its lowercased message (empty string when absent) contains
some keyword as a substring. -/
def keepPost (cfg : FilterConfig) (parseDate : String → JSDate) (post : Post) : Bool :=
  let dateOk : Bool :=
    if cfg.startDate.isSome || cfg.endDate.isSome then
      let postDate := parseDate post.created_time
      if jsDateLt postDate cfg.startDate then false
      else if jsDateGt postDate (cfg.endDate.map endOfDay) then false
      else true
    else true
  if !dateOk then false
  else
    match cfg.filterKeywords with
    | some ks =>
        if ks.length > 0 then
          let message := (post.message.getD "").toLower
          ks.any fun k => decide ( List.IsInfix k.data message.data)
        else true
    | none => true

/-- `filterPosts(posts)` (README.md:1018-1053).  The input is `Option`-al
because the JS guard `if (!posts || posts.length === 0) return []` accepts a
missing list. -/
def filterPosts (cfg : FilterConfig) (parseDate : String → JSDate)
    (posts : Option (List Post)) : List Post :=
  match posts with
  | none => []
  | some l => if l.length = 0 then [] else l.filter (keepPost cfg parseDate)

/-! ## widget.js — widget state, loadFeed, goToPage -/

/-- The mutable widget fields the core methods touch (README.md:927-932):
the filtered post list, the 1-based current page, the re-entrancy guard
`isLoading`, and the cache-provenance fields.  `cacheTimestamp` starts as
`null` and later holds a JS `Date`, hence `Option JSDate`. -/
structure WidgetState where
  posts : List Post
  currentPage : Int
  isLoading : Bool
  fromCache : Bool
  cacheTimestamp : Option JSDate
deriving Repr

/-- `loadFeed(isRefresh)` (README.md:967-991) together with the `showError`
fallback it calls (README.md:1055-1073), as a state transformer.  The
returned `Bool` is true when the call passed the `isLoading` guard and
issued a fetch, false when the guard returned immediately.  On fetch
success: posts are filtered, provenance copied from the result, page reset
to 1, render.  On fetch failure `showError` re-reads the cache directly:
present → render the filtered cached posts as a degraded result; absent →
render the fallback markup, state otherwise untouched.  The `finally`
clears `isLoading` on every path. -/
def loadFeed (cfg : FilterConfig) (parseDate : String → JSDate)
    (oracle : String → Nat → FetchOutcome) (hostname : String)
    (parseData : String → Option (List Post)) (parseTime : String → JSDate)
    (store : Store) (now : Int) (apiUrl : String)
    (st : WidgetState) : WidgetState × Bool :=
  if st.isLoading then (st, false)
  else
    match fetchFeed oracle hostname parseData parseTime store now apiUrl with
    | .ok result =>
        ({ st with
            posts := filterPosts cfg parseDate (some result.data)
            fromCache := result.fromCache
            cacheTimestamp := some result.timestamp
            currentPage := 1
            isLoading := false }, true)
    | .error _ =>
        match getFromCache parseData parseTime store with
        | some cached =>
            ({ st with
                posts := filterPosts cfg parseDate (some cached.data)
                fromCache := true
                cacheTimestamp := some cached.timestamp
                currentPage := 1
                isLoading := false }, true)
        | none => ({ st with isLoading := false }, true)

/-- `goToPage(page)` (README.md:1286-1296), given the configured
`itemsPerPage`.  `totalPages = Math.ceil(posts.length / itemsPerPage)` is
the integer ceiling `(len + ipp - 1) / ipp`.  Out-of-range targets return
without touching the state or rendering; in-range targets set the page and
render (the returned `Bool`). -/
def goToPage (itemsPerPage : Nat) (st : WidgetState) (page : Int) : WidgetState × Bool :=
  let totalPages : Nat := (st.posts.length + itemsPerPage - 1) / itemsPerPage
  if page < 1 ∨ page > (totalPages : Int) then (st, false)
  else ({ st with currentPage := page }, true)

/-! ## Helper lemmas -/

/-- The retry loop makes at most `fuel` attempts. -/
theorem fetchGo_attempts_le (oracle : String → Nat → FetchOutcome) (url : String)
    (retries : Nat) : ∀ fuel attempt, (fetchGo oracle url retries fuel attempt).attempts ≤ fuel := by
  intro fuel
  induction fuel with
  | zero => intro attempt; simp [fetchGo]
  | succ n ih =>
      intro attempt
      simp only [fetchGo]
      cases attemptError (oracle url attempt) with
      | none => simp
      | some msg =>
          by_cases h : attempt == retries
          · simp [h]
          · simp only [h, if_false, Bool.false_eq_true]
            have := ih (attempt + 1)
            omega

/-! ## Claims -/

/-- C2 (code_bug evaluation): with the default `maxRetries = 2`, a fetch
whose every attempt answers HTTP 404 does NOT fail after one attempt: the
`throw` for the 4xx status sits inside the `try` block, so the `catch` of
the same iteration catches it and retries.  The call makes all 3 attempts,
waiting 1000 ms and then 2000 ms, before failing with the 4xx message —
contradicting both the claim and the code's own comment
`Don't retry on 4xx errors (client errors)` (README.md:1457). -/
theorem fetchWithRetry_retries_http404 :
    fetchWithRetry (fun _ _ => .response 404 []) "https://example.com/feed" 2 =
      { result := .error "API error: 404", attempts := 3, waits := [1000, 2000] } := by
  rfl

/-- C3 (counterexample): a post whose `created_time` does not parse to a
valid instant is NOT excluded by a configured date range — `new Date` gives
an Invalid Date whose `NaN` comparisons are all false, so neither date
check rejects it and `filterPosts` keeps it.  Here the date parser models
JS `Date` parsing on the one string the input uses (`"not-a-date"` is
unparseable), the range is 1970-01-01 .. 1970-01-02, and the claim says the
post must be excluded. -/
theorem filterPosts_keeps_unparseable_date :
    (fun _ => (none : JSDate)) "not-a-date" = none ∧
      (⟨"p1", "not-a-date", some "hello"⟩ : Post) ∈
        filterPosts ⟨none, some 0, some 86400000⟩ (fun _ => (none : JSDate))
          (some [⟨"p1", "not-a-date", some "hello"⟩]) := by
  constructor
  · rfl
  · decide

/-- C3 (amended): with both `startDate` and `endDate` configured and no
keyword filter, `filterPosts` keeps exactly the posts whose `created_time`
parses to an instant in `[startDate, endDate end-of-day]` — **plus** every
post whose `created_time` does not parse: an Invalid Date passes both NaN
comparisons and is kept, not excluded. -/
theorem filterPosts_date_range (parseDate : String → JSDate) (s e : Int)
    (P : List Post) :
    filterPosts ⟨none, some s, some e⟩ parseDate (some P) =
      P.filter fun p =>
        match parseDate p.created_time with
        | some t => decide (s ≤ t ∧ t ≤ endOfDay e)
        | none => true := by
  have hpt : ∀ p : Post,
      keepPost ⟨none, some s, some e⟩ parseDate p =
        (match parseDate p.created_time with
         | some t => decide (s ≤ t ∧ t ≤ endOfDay e)
         | none => true) := by
    intro p
    simp only [keepPost]
    cases h : parseDate p.created_time with
    | none => simp [h, jsDateLt, jsDateGt]
    | some t =>
        simp only [h, jsDateLt, jsDateGt, Option.isSome_some, Option.map_some]
        by_cases h1 : t < s <;> by_cases h2 : t > endOfDay e <;>
          (simp [h1, h2]; try omega)
  cases P with
  | nil => rfl
  | cons a l =>
      simp only [filterPosts, List.length_cons]
      rw [if_neg (by omega)]
      exact List.filter_congr fun p _ => hpt p

/-- C6: with the default `maxRetries = 2`, `fetchWithRetry` makes at most
3 attempts; a fetch answering HTTP 503, 503, then 200 succeeds on the third
attempt after backoff waits of 1000 ms and then 2000 ms; and a fetch whose
every attempt fails transiently fails after exactly 3 attempts with the
same waits, carrying the last failure's message. -/
theorem fetchWithRetry_schedule (oracle : String → Nat → FetchOutcome) (url : String) :
    (fetchWithRetry oracle url 2).attempts ≤ 3
    ∧ (∀ b1 b2 d, oracle url 0 = .response 503 b1 → oracle url 1 = .response 503 b2 →
        oracle url 2 = .response 200 d →
        fetchWithRetry oracle url 2 =
          { result := .ok d, attempts := 3, waits := [1000, 2000] })
    ∧ (∀ m0 m1 m2, oracle url 0 = .failure m0 → oracle url 1 = .failure m1 →
        oracle url 2 = .failure m2 →
        fetchWithRetry oracle url 2 =
          { result := .error m2, attempts := 3, waits := [1000, 2000] }) := by
  refine ⟨fetchGo_attempts_le oracle url 2 3 0, ?_, ?_⟩
  · intro b1 b2 d h0 h1 h2
    simp [fetchWithRetry, fetchGo, h0, h1, h2, attemptError, attemptData, retryDelays]
  · intro m0 m1 m2 h0 h1 h2
    simp [fetchWithRetry, fetchGo, h0, h1, h2, attemptError, retryDelays]

/-- C6 witness: the 503/503/200 schedule at a concrete oracle. -/
theorem fetchWithRetry_schedule_witness :
    fetchWithRetry
        (fun _ n => if n = 0 then .response 503 [] else if n = 1 then .response 503 []
          else .response 200 [⟨"1", "2025-01-01T00:00:00+0000", none⟩])
        "https://example.com/feed" 2 =
      { result := .ok [⟨"1", "2025-01-01T00:00:00+0000", none⟩],
        attempts := 3, waits := [1000, 2000] } :=
  (fetchWithRetry_schedule
      (fun _ n => if n = 0 then .response 503 [] else if n = 1 then .response 503 []
        else .response 200 [⟨"1", "2025-01-01T00:00:00+0000", none⟩])
      "https://example.com/feed").2.1 [] []
    [⟨"1", "2025-01-01T00:00:00+0000", none⟩] rfl rfl rfl

/-- C4: with a non-empty keyword list `K` and no date bounds, `filterPosts`
returns exactly the subsequence of `P` (order preserved, being a `filter`)
whose lowercased message — empty string when the message is absent —
contains at least one member of `K` as a substring (OR semantics); an
absent or empty keyword list leaves the post list unchanged, and an absent
post list yields `[]`. -/
theorem filterPosts_keyword_filter (parseDate : String → JSDate)
    (K : List String) (P : List Post) (hK : K ≠ []) :
    (filterPosts ⟨some K, none, none⟩ parseDate (some P) =
        P.filter fun p =>
          decide (∃ k ∈ K, List.IsInfix k.data ((p.message.getD "").toLower).data))
    ∧ List.Sublist (filterPosts ⟨some K, none, none⟩ parseDate (some P)) P
    ∧ (∀ Q : List Post, filterPosts ⟨none, none, none⟩ parseDate (some Q) = Q)
    ∧ (∀ Q : List Post, filterPosts ⟨some [], none, none⟩ parseDate (some Q) = Q)
    ∧ filterPosts ⟨some K, none, none⟩ parseDate none = [] := by
  have hkp : ∀ p : Post,
      keepPost ⟨some K, none, none⟩ parseDate p =
        decide (∃ k ∈ K, List.IsInfix k.data ((p.message.getD "").toLower).data) := by
    intro p
    have hl : 0 < K.length := List.length_pos.mpr hK
    simp only [keepPost, Option.isSome_none, Bool.or_self, Bool.not_true,
      Bool.false_eq_true, if_false, gt_iff_lt, hl, if_true, if_pos hl]
    rw [Bool.eq_iff_iff]
    simp [List.any_eq_true]
  have hfilter : filterPosts ⟨some K, none, none⟩ parseDate (some P) =
      P.filter (keepPost ⟨some K, none, none⟩ parseDate) := by
    cases P with
    | nil => rfl
    | cons a l =>
        simp only [filterPosts, List.length_cons]
        rw [if_neg (by omega)]
  have hid : ∀ (kw : Option (List String)) (Q : List Post),
      (kw = none ∨ kw = some []) →
      filterPosts ⟨kw, none, none⟩ parseDate (some Q) = Q := by
    intro kw Q hkw
    have hkeep : ∀ p : Post, keepPost ⟨kw, none, none⟩ parseDate p = true := by
      intro p
      rcases hkw with h | h <;> subst h <;> simp [keepPost]
    cases Q with
    | nil => rfl
    | cons a l =>
        simp only [filterPosts, List.length_cons]
        rw [if_neg (by omega)]
        simp [List.filter_congr fun p _ => hkeep p]
  refine ⟨?_, ?_, fun Q => hid none Q (Or.inl rfl), fun Q => hid (some []) Q (Or.inr rfl), rfl⟩
  · rw [hfilter]
    exact List.filter_congr fun p _ => hkp p
  · rw [hfilter]
    exact List.filter_sublist P

/-- C4 witness: the keyword-filter characterization applied at a concrete
non-empty keyword list; the identity conjunct evaluated at one post. -/
theorem filterPosts_keyword_filter_witness :
    filterPosts ⟨none, none, none⟩ (fun _ => (none : JSDate))
        (some [⟨"p1", "2025-01-01T00:00:00+0000", some "a fire today"⟩]) =
      [⟨"p1", "2025-01-01T00:00:00+0000", some "a fire today"⟩] :=
  (filterPosts_keyword_filter (fun _ => (none : JSDate)) ["fire", "cyclone"] []
      (by decide)).2.2.1 [⟨"p1", "2025-01-01T00:00:00+0000", some "a fire today"⟩]

/-- C7: for `itemsPerPage > 0`, `goToPage(target)` is a no-op (state
unchanged, no render) when the target lies outside
`[1, totalPages = ceil(totalItems / itemsPerPage)]`; otherwise it sets
`currentPage := target` and renders; hence `currentPage` never leaves
`[1, max 1 totalPages]`.  The integer ceiling is `(len + ipp - 1) / ipp`. -/
theorem goToPage_bounds (ipp : Nat) (st : WidgetState) (page : Int)
    (hipp : 0 < ipp) :
    ((page < 1 ∨ page > (((st.posts.length + ipp - 1) / ipp : Nat) : Int)) →
        goToPage ipp st page = (st, false))
    ∧ (1 ≤ page → page ≤ (((st.posts.length + ipp - 1) / ipp : Nat) : Int) →
        goToPage ipp st page = ({ st with currentPage := page }, true))
    ∧ (1 ≤ st.currentPage →
        st.currentPage ≤ ((max 1 ((st.posts.length + ipp - 1) / ipp) : Nat) : Int) →
        1 ≤ (goToPage ipp st page).1.currentPage ∧
          (goToPage ipp st page).1.currentPage ≤
            ((max 1 ((st.posts.length + ipp - 1) / ipp) : Nat) : Int)) := by
  refine ⟨?_, ?_, ?_⟩
  · intro h
    simp only [goToPage]
    rw [if_pos h]
  · intro h1 h2
    simp only [goToPage]
    rw [if_neg (by omega)]
  · intro hlo hhi
    simp only [goToPage]
    by_cases h : page < 1 ∨ page > (((st.posts.length + ipp - 1) / ipp : Nat) : Int)
    · rw [if_pos h]
      exact ⟨hlo, hhi⟩
    · rw [if_neg h]
      push_neg at h
      refine ⟨h.1, ?_⟩
      have := h.2
      have hle : ((st.posts.length + ipp - 1) / ipp : Nat) ≤
          (max 1 ((st.posts.length + ipp - 1) / ipp) : Nat) := Nat.le_max_right _ _
      simp only []
      omega

/-- C7 witness: `itemsPerPage = 2` over 5 posts gives 3 pages, and
`goToPage 4` is a no-op. -/
theorem goToPage_bounds_witness :
    goToPage 2
        ⟨[⟨"a", "t", none⟩, ⟨"b", "t", none⟩, ⟨"c", "t", none⟩, ⟨"d", "t", none⟩,
          ⟨"e", "t", none⟩], 3, false, false, none⟩ 4 =
      (⟨[⟨"a", "t", none⟩, ⟨"b", "t", none⟩, ⟨"c", "t", none⟩, ⟨"d", "t", none⟩,
          ⟨"e", "t", none⟩], 3, false, false, none⟩, false) :=
  (goToPage_bounds 2
      ⟨[⟨"a", "t", none⟩, ⟨"b", "t", none⟩, ⟨"c", "t", none⟩, ⟨"d", "t", none⟩,
        ⟨"e", "t", none⟩], 3, false, false, none⟩ 4 (by decide)).1 (by decide)

/-- C1: the two-tier fallback contract of `fetchFeed`.  When the live
fetch succeeds it resolves fresh (`fromCache = false`, timestamp = now,
no error field); when the live fetch fails and a cache entry is present it
resolves degraded (the cached posts, `fromCache = true`, the cached
timestamp, the failure's message); and it throws the original fetch error
if and only if the live fetch fails and no cache entry is present. -/
theorem fetchFeed_fallback_contract (oracle : String → Nat → FetchOutcome)
    (hostname : String) (parseData : String → Option (List Post))
    (parseTime : String → JSDate) (store : Store) (now : Int) (apiUrl : String) :
    (∀ d, (fetchWithRetry oracle (getApiUrl hostname apiUrl) 2).result = Except.ok d →
        fetchFeed oracle hostname parseData parseTime store now apiUrl =
          Except.ok { data := d, fromCache := false, timestamp := some now, error := none })
    ∧ (∀ e c, (fetchWithRetry oracle (getApiUrl hostname apiUrl) 2).result = Except.error e →
        getFromCache parseData parseTime store = some c →
        fetchFeed oracle hostname parseData parseTime store now apiUrl =
          Except.ok { data := c.data, fromCache := true, timestamp := c.timestamp,
                      error := some e })
    ∧ (∀ e, fetchFeed oracle hostname parseData parseTime store now apiUrl = Except.error e ↔
        ((fetchWithRetry oracle (getApiUrl hostname apiUrl) 2).result = Except.error e ∧
          getFromCache parseData parseTime store = none)) := by
  refine ⟨?_, ?_, ?_⟩
  · intro d h
    simp [fetchFeed, fetchFeedAt, h]
  · intro e c h hc
    simp [fetchFeed, fetchFeedAt, h, hc]
  · intro e
    cases hres : (fetchWithRetry oracle (getApiUrl hostname apiUrl) 2).result with
    | ok d => simp [fetchFeed, fetchFeedAt, hres]
    | error e2 =>
        cases hc : getFromCache parseData parseTime store with
        | none => simp [fetchFeed, fetchFeedAt, hres, hc]
        | some c => simp [fetchFeed, fetchFeedAt, hres, hc]

/-- C1 witness: a live fetch that always fails against an empty cache makes
`fetchFeed` throw the original failure. -/
theorem fetchFeed_fallback_contract_witness :
    fetchFeed (fun _ _ => .failure "network down") "example.com" (fun _ => none)
        (fun _ => none) ⟨none, none⟩ 0 "https://api.example/feed" =
      Except.error "network down" :=
  ((fetchFeed_fallback_contract (fun _ _ => .failure "network down") "example.com"
      (fun _ => none) (fun _ => none) ⟨none, none⟩ 0 "https://api.example/feed").2.2
    "network down").mpr ⟨rfl, rfl⟩

/-- C5: `saveToCache(X)` followed by `getFromCache()` — both writes
succeeding, no intervening write — returns a present `CachedFeed` whose
posts equal `X` and whose timestamp is the instant recorded at save time.
The hypotheses are the host guarantees at the saved value: `JSON.parse`
inverts `JSON.stringify` (to a non-empty string), and `new Date(iso)`
recovers the instant that `toISOString` rendered. -/
theorem cache_roundtrip (X : List Post) (s : Store)
    (stringify : List Post → String) (parseData : String → Option (List Post))
    (nowIso : String) (parseTime : String → JSDate) (now : Int)
    (h1 : parseData (stringify X) = some X) (h2 : stringify X ≠ "")
    (h3 : parseTime nowIso = some now) (h4 : nowIso ≠ "") :
    getFromCache parseData parseTime (saveToCache stringify nowIso true true X s) =
      some { data := X, timestamp := some now } := by
  simp [saveToCache, getFromCache, h1, h2, h3, h4]

/-- C5 witness: the round trip at one concrete post list and serializer. -/
theorem cache_roundtrip_witness :
    getFromCache (fun _ => some [⟨"p1", "2025-01-01T00:00:00+0000", some "hi"⟩])
        (fun _ => some 1735689600000)
        (saveToCache (fun _ => "payload") "2025-01-01T00:00:00.000Z" true true
          [⟨"p1", "2025-01-01T00:00:00+0000", some "hi"⟩] ⟨none, none⟩) =
      some { data := [⟨"p1", "2025-01-01T00:00:00+0000", some "hi"⟩],
             timestamp := some 1735689600000 } :=
  cache_roundtrip [⟨"p1", "2025-01-01T00:00:00+0000", some "hi"⟩] ⟨none, none⟩
    (fun _ => "payload") (fun _ => some [⟨"p1", "2025-01-01T00:00:00+0000", some "hi"⟩])
    "2025-01-01T00:00:00.000Z" (fun _ => some 1735689600000) 1735689600000
    rfl (by decide) rfl (by decide)

/-- C8: a `loadFeed` call made while `isLoading` is true returns
immediately: the state is unchanged and no fetch is issued (the returned
flag is false), so re-entrant calls are ignored, never queued. -/
theorem loadFeed_reentrancy_guard (cfg : FilterConfig) (parseDate : String → JSDate)
    (oracle : String → Nat → FetchOutcome) (hostname : String)
    (parseData : String → Option (List Post)) (parseTime : String → JSDate)
    (store : Store) (now : Int) (apiUrl : String) (st : WidgetState)
    (h : st.isLoading = true) :
    loadFeed cfg parseDate oracle hostname parseData parseTime store now apiUrl st =
      (st, false) := by
  simp [loadFeed, h]

/-- C8 witness: the guard at a concrete loading state. -/
theorem loadFeed_reentrancy_guard_witness :
    loadFeed ⟨none, none, none⟩ (fun _ => (none : JSDate))
        (fun _ _ => .failure "down") "example.com" (fun _ => none) (fun _ => none)
        ⟨none, none⟩ 0 "https://api.example/feed"
        ⟨[], 1, true, false, none⟩ =
      (⟨[], 1, true, false, none⟩, false) :=
  loadFeed_reentrancy_guard ⟨none, none, none⟩ (fun _ => (none : JSDate))
    (fun _ _ => .failure "down") "example.com" (fun _ => none) (fun _ => none)
    ⟨none, none⟩ 0 "https://api.example/feed" ⟨[], 1, true, false, none⟩ rfl

/-- C9: on hostname `localhost`, `127.0.0.1` or the empty string,
`fetchFeed` discards the configured url and runs its fetch against the
relative path `mock-data.json`; on every other hostname it fetches the
configured url unchanged. -/
theorem getApiUrl_localhost_mock (oracle : String → Nat → FetchOutcome)
    (parseData : String → Option (List Post)) (parseTime : String → JSDate)
    (store : Store) (now : Int) (hostname apiUrl : String) :
    ((hostname = "localhost" ∨ hostname = "127.0.0.1" ∨ hostname = "") →
        getApiUrl hostname apiUrl = "mock-data.json" ∧
        fetchFeed oracle hostname parseData parseTime store now apiUrl =
          fetchFeedAt oracle "mock-data.json" parseData parseTime store now)
    ∧ (¬(hostname = "localhost" ∨ hostname = "127.0.0.1" ∨ hostname = "") →
        getApiUrl hostname apiUrl = apiUrl ∧
        fetchFeed oracle hostname parseData parseTime store now apiUrl =
          fetchFeedAt oracle apiUrl parseData parseTime store now) := by
  constructor
  · intro h
    have hurl : getApiUrl hostname apiUrl = "mock-data.json" := by
      simp only [getApiUrl, if_pos h]
    exact ⟨hurl, by rw [fetchFeed, hurl]⟩
  · intro h
    have hurl : getApiUrl hostname apiUrl = apiUrl := by
      simp only [getApiUrl, if_neg h]
    exact ⟨hurl, by rw [fetchFeed, hurl]⟩

/-- C9 witness: on `localhost` the configured url is replaced by the mock
path. -/
theorem getApiUrl_localhost_mock_witness :
    getApiUrl "localhost" "https://api.example/feed" = "mock-data.json" ∧
      fetchFeed (fun _ _ => .failure "down") "localhost" (fun _ => none)
          (fun _ => none) ⟨none, none⟩ 0 "https://api.example/feed" =
        fetchFeedAt (fun _ _ => .failure "down") "mock-data.json" (fun _ => none)
          (fun _ => none) ⟨none, none⟩ 0 :=
  (getApiUrl_localhost_mock (fun _ _ => .failure "down") (fun _ => none)
      (fun _ => none) ⟨none, none⟩ 0 "localhost" "https://api.example/feed").1
    (Or.inl rfl)

/-- C10: `saveToCache` is not atomic on error.  It writes the posts key
before the timestamp key with no rollback, so when the second write throws
after the first succeeds, the store holds the new posts next to the prior
timestamp, and `getFromCache` then returns that mixed pair as a present
`CachedFeed` (given the prior timestamp key was present, as the claim's
"previous timestamp" presupposes). -/
theorem saveToCache_not_atomic (X : List Post) (s : Store)
    (stringify : List Post → String) (nowIso : String)
    (parseData : String → Option (List Post)) (parseTime : String → JSDate)
    (tPrev : String) (hprev : s.cacheTime = some tPrev) (hne : tPrev ≠ "")
    (h1 : parseData (stringify X) = some X) (h2 : stringify X ≠ "") :
    saveToCache stringify nowIso true false X s = { s with cache := some (stringify X) }
    ∧ getFromCache parseData parseTime (saveToCache stringify nowIso true false X s) =
        some { data := X, timestamp := parseTime tPrev } := by
  constructor
  · rfl
  · simp [saveToCache, getFromCache, hprev, hne, h1, h2]

/-- C10 witness: a failed second write over a pre-populated cache leaves the
new posts paired with the old timestamp, and the pair is read back. -/
theorem saveToCache_not_atomic_witness :
    getFromCache (fun _ => some [⟨"p2", "2025-02-01T00:00:00+0000", none⟩])
        (fun _ => some 1735689600000)
        (saveToCache (fun _ => "new-payload") "2025-02-02T00:00:00.000Z" true false
          [⟨"p2", "2025-02-01T00:00:00+0000", none⟩]
          ⟨some "old-payload", some "2025-01-01T00:00:00.000Z"⟩) =
      some { data := [⟨"p2", "2025-02-01T00:00:00+0000", none⟩],
             timestamp := some 1735689600000 } :=
  (saveToCache_not_atomic [⟨"p2", "2025-02-01T00:00:00+0000", none⟩]
      ⟨some "old-payload", some "2025-01-01T00:00:00.000Z"⟩ (fun _ => "new-payload")
      "2025-02-02T00:00:00.000Z" (fun _ => some [⟨"p2", "2025-02-01T00:00:00+0000", none⟩])
      (fun _ => some 1735689600000) "2025-01-01T00:00:00.000Z" rfl (by decide) rfl
      (by decide)).2

end SecurentFb
